import Mathlib

/-!
Verification development for the PsicoApp clinical-records front-end.

The repository's computational core consists of client-side date
utilities, form-validation schemas, an in-memory list filter, and thin
remote data-access functions. This file gives a shallow embedding of
those pieces, translated from the TypeScript source, together with
theorems checking the natural-language specification against them.

Conventions of the embedding:
- JavaScript `Date` objects are observed only through `getFullYear`,
  `getMonth`, `getDate` and ordering comparisons, so they are embedded
  as `CivilDate` triples (year, 1-based month, day) in the proleptic
  Gregorian calendar, which is the calendar ECMAScript prescribes.
  The host timezone is taken to be UTC, so the local-time getters and
  the UTC parse of `YYYY-MM-DD` strings agree on components.
- JavaScript strings are embedded as Lean `String`; the inputs at issue
  are ASCII, where `length`, `toLowerCase`, `trim` and `slice` agree
  with their Lean counterparts used below.
- Fallible remote operations are embedded as `Except`-valued functions
  over an explicit table state.
-/

namespace PsicoApp

/-- Civil calendar date with 1-based month, as observed through the JS
`Date` getters (`getFullYear`, `getMonth () + 1`, `getDate`). -/
structure CivilDate where
  year : Int
  month : Int
  day : Int
deriving DecidableEq

/-- Leap-year rule of the proleptic Gregorian calendar used by
ECMAScript `Date` time computations. -/
def isLeapYear (y : Int) : Bool :=
  y % 4 == 0 && (y % 100 != 0 || y % 400 == 0)

/-- Number of days in month `m` (1-based) of year `y`, per the
Gregorian calendar. -/
def daysInMonth (y m : Int) : Int :=
  if m = 2 then (if isLeapYear y then 29 else 28)
  else if m = 4 ∨ m = 6 ∨ m = 9 ∨ m = 11 then 30
  else 31

/-- Year mapping applied by the multi-argument JS `Date` constructor:
an integer year argument between 0 and 99 denotes 1900 + year
(ECMAScript `MakeFullYear`); other values pass through. -/
def jsYearAdjust (y : Int) : Int :=
  if 0 ≤ y ∧ y ≤ 99 then 1900 + y else y

/-- Component normalization performed by `new Date(y, m - 1, d)` for a
1-based month `m ∈ [1, 12]` and day `d ∈ [1, 31]`, as observed through
the getters: a day count exceeding the month length rolls over into the
following month (ECMAScript `MakeDay`). With `d ≤ 31` at most one
rollover step can occur, since every month has at least 28 days. -/
def jsDateFromYMD (y m d : Int) : CivilDate :=
  if d ≤ daysInMonth y m then ⟨y, m, d⟩
  else if m = 12 then ⟨y + 1, 1, d - daysInMonth y m⟩
  else ⟨y, m + 1, d - daysInMonth y m⟩

/-- Lexicographic order on civil dates. For dates constructed at local
midnight, `dateA <= dateB-now` on JS `Date` millisecond values holds
exactly when the date triple of `dateA` is lexicographically at most
the triple of the current day, which this predicate expresses. -/
def dateLE (a b : CivilDate) : Prop :=
  a.year < b.year ∨ (a.year = b.year ∧
    (a.month < b.month ∨ (a.month = b.month ∧ a.day ≤ b.day)))

/-- Strict lexicographic order on civil dates. -/
def dateLT (a b : CivilDate) : Prop :=
  a.year < b.year ∨ (a.year = b.year ∧
    (a.month < b.month ∨ (a.month = b.month ∧ a.day < b.day)))

instance (a b : CivilDate) : Decidable (dateLE a b) := by
  unfold dateLE
  exact inferInstance

instance (a b : CivilDate) : Decidable (dateLT a b) := by
  unfold dateLT
  exact inferInstance

/-- ASCII digit test, the character class `\d` of the source regexes. -/
def isAsciiDigit (c : Char) : Bool :=
  decide (48 ≤ c.toNat ∧ c.toNat ≤ 57)

/-- Numeric value of an ASCII digit character. -/
def digitVal (c : Char) : Int :=
  (c.toNat : Int) - 48

/-- Parse of a `DD/MM/YYYY` display date, embedding the regex
`^(0[1-9]|[12][0-9]|3[01])\/(0[1-9]|1[0-2])\/\d{4}$` of
`validarFechaFormato` together with the subsequent
`fecha.split('/').map(Number)`: the day alternation matches precisely
the two-digit values 01 to 31 and the month alternation 01 to 12. -/
def parseDDMMYYYY (s : String) : Option CivilDate :=
  match s.data with
  | [d1, d2, a, m1, m2, b, y1, y2, y3, y4] =>
    if a = '/' ∧ b = '/' ∧ isAsciiDigit d1 ∧ isAsciiDigit d2 ∧
        isAsciiDigit m1 ∧ isAsciiDigit m2 ∧ isAsciiDigit y1 ∧
        isAsciiDigit y2 ∧ isAsciiDigit y3 ∧ isAsciiDigit y4 then
      if 1 ≤ 10 * digitVal d1 + digitVal d2 ∧
          10 * digitVal d1 + digitVal d2 ≤ 31 ∧
          1 ≤ 10 * digitVal m1 + digitVal m2 ∧
          10 * digitVal m1 + digitVal m2 ≤ 12 then
        some ⟨1000 * digitVal y1 + 100 * digitVal y2 +
              10 * digitVal y3 + digitVal y4,
            10 * digitVal m1 + digitVal m2,
            10 * digitVal d1 + digitVal d2⟩
      else none
    else none
  | _ => none

/-- Embedding of `validarFechaFormato` from `PacienteFormScreen.tsx`
(both variants are textually identical): the regex test, the split into
numeric components, the reconstruction `new Date(anio, mes - 1, dia)`,
the component comparison against `getFullYear`/`getMonth`/`getDate`,
and the `date <= new Date()` bound. The current moment is passed as the
civil date `today`; a local-midnight date is `<=` the current moment
exactly when its triple is lexicographically at most today's. -/
def validarFechaFormato (fecha : String) (today : CivilDate) : Bool :=
  match parseDDMMYYYY fecha with
  | none => false
  | some c =>
    let date := jsDateFromYMD (jsYearAdjust c.year) c.month c.day
    decide (date.year = c.year ∧ date.month = c.month ∧
      date.day = c.day ∧ dateLE date today)

/-- Specification-side predicate for claim C1, following the spec's
words: the string matches day(01-31)/month(01-12)/4-digit-year, the
combination is a real calendar date (the day does not exceed the month
length), and the date is not later than the current moment. -/
def specValidDisplayDate (fecha : String) (today : CivilDate) : Bool :=
  match parseDDMMYYYY fecha with
  | none => false
  | some c => decide (c.day ≤ daysInMonth c.year c.month ∧ dateLE c today)

/-- Parse of a `YYYY-MM-DD` storage date as performed by `new
Date(dateString)` on the ECMAScript date-only ISO format (the format
every storage date written by the app has, via `convertirFechaAISO`):
four year digits, hyphen, two month digits (01-12), hyphen, two day
digits valid for the month. Strings outside this shape that the
engine's implementation-defined fallback parser might still accept are
not used by the repository and are outside the model; for them and for
unparseable strings the result is an invalid date, embedded as
`none`. -/
def jsParseISODate (s : String) : Option CivilDate :=
  match s.data with
  | [y1, y2, y3, y4, a, m1, m2, b, d1, d2] =>
    if a = '-' ∧ b = '-' ∧ isAsciiDigit y1 ∧ isAsciiDigit y2 ∧
        isAsciiDigit y3 ∧ isAsciiDigit y4 ∧ isAsciiDigit m1 ∧
        isAsciiDigit m2 ∧ isAsciiDigit d1 ∧ isAsciiDigit d2 then
      if 1 ≤ 10 * digitVal m1 + digitVal m2 ∧
          10 * digitVal m1 + digitVal m2 ≤ 12 ∧
          1 ≤ 10 * digitVal d1 + digitVal d2 ∧
          10 * digitVal d1 + digitVal d2 ≤
            daysInMonth
              (1000 * digitVal y1 + 100 * digitVal y2 +
                10 * digitVal y3 + digitVal y4)
              (10 * digitVal m1 + digitVal m2) then
        some ⟨1000 * digitVal y1 + 100 * digitVal y2 +
              10 * digitVal y3 + digitVal y4,
            10 * digitVal m1 + digitVal m2,
            10 * digitVal d1 + digitVal d2⟩
      else none
    else none
  | _ => none

/-- Two-digit rendering used by the `day: "2-digit"` option of
`toLocaleDateString`. -/
def pad2 (n : Int) : String :=
  if n < 10 then "0" ++ toString n else toString n

/-- Full month names of the `es-PE` locale (CLDR wide month names, as
used by the `month: "long"` option of `toLocaleDateString`). -/
def esPeMonthName (m : Int) : String :=
  if m = 1 then "enero"
  else if m = 2 then "febrero"
  else if m = 3 then "marzo"
  else if m = 4 then "abril"
  else if m = 5 then "mayo"
  else if m = 6 then "junio"
  else if m = 7 then "julio"
  else if m = 8 then "agosto"
  else if m = 9 then "setiembre"
  else if m = 10 then "octubre"
  else if m = 11 then "noviembre"
  else "diciembre"

/-- Rendering of `toLocaleDateString("es-PE", { day: "2-digit", month:
"long", year: "numeric" })`: on a valid date the CLDR `es-PE` pattern
produces `dd de MMMM de y`; on an invalid date (NaN time value) the
method returns the string `"Invalid Date"` - it does not throw. -/
def jsToLocaleDateStringEsPe (d : Option CivilDate) : String :=
  match d with
  | none => "Invalid Date"
  | some c => pad2 c.day ++ " de " ++ esPeMonthName c.month ++ " de " ++
      toString c.year

/-- Embedding of `formatDate` from `PacienteDetail.tsx`: `new
Date(dateString).toLocaleDateString("es-PE", ...)` inside a
`try`/`catch` that falls back to `dateString`. Neither the `Date`
constructor nor `toLocaleDateString` throws on a string argument, so
the catch branch is unreachable and the function is total. The host
timezone is modelled as UTC, so the UTC components parsed from
`YYYY-MM-DD` are the components rendered. -/
def formatDate (dateString : String) : String :=
  jsToLocaleDateStringEsPe (jsParseISODate dateString)

/-- Embedding of `calculateAge` from `ListaPacientes.tsx` and
`PacienteDetail.tsx` (both copies are textually identical), with the
birth date and the current date already reduced to their civil
components: `getFullYear()` is `year`, `getMonth()` is `month - 1`,
`getDate()` is `day`. -/
def calculateAge (birth today : CivilDate) : Int :=
  let age := today.year - birth.year
  let monthDiff := (today.month - 1) - (birth.month - 1)
  if monthDiff < 0 ∨ (monthDiff = 0 ∧ today.day < birth.day) then age - 1
  else age

/-- Wrapper mirroring the source signature `calculateAge(birthDate:
string)`: the birth date string is parsed by `new Date`; an unparseable
string would propagate NaN through the arithmetic, embedded as
`none`. -/
def calculateAgeStr (birthDate : String) (today : CivilDate) :
    Option Int :=
  (jsParseISODate birthDate).map (fun b => calculateAge b today)

/-- Specification-side age computation for claim C3, following the
spec's words: the whole-year difference between today and the birth
date, decremented by one if the birth month/day has not yet occurred
this year. -/
def computeAgeSpec (birth today : CivilDate) : Int :=
  today.year - birth.year -
    (if today.month < birth.month ∨
        (today.month = birth.month ∧ today.day < birth.day) then 1 else 0)

/-- Patient record fields used by the list filter. -/
structure Paciente where
  nombre : String
  apellido : String
  dni : String
deriving DecidableEq

/-- Prefix test on character lists. -/
def listIsPrefixOf : List Char → List Char → Bool
  | [], _ => true
  | _ :: _, [] => false
  | a :: as, b :: bs => a == b && listIsPrefixOf as bs

/-- Contiguous-substring test on character lists. -/
def listIsInfixOf (needle hay : List Char) : Bool :=
  match hay with
  | [] => listIsPrefixOf needle []
  | _ :: tl => listIsPrefixOf needle hay || listIsInfixOf needle tl

/-- JS `String.prototype.toLowerCase`, which on the ASCII range agrees
with per-character lowering. -/
def jsToLowerCase (s : String) : String :=
  String.mk (s.data.map Char.toLower)

/-- JS `String.prototype.includes`: substring containment. -/
def jsIncludes (s sub : String) : Bool :=
  listIsInfixOf sub.data s.data

/-- ASCII whitespace test; the inputs at issue are ASCII, where JS
`trim` removes exactly these characters. -/
def isJsWhitespace (c : Char) : Bool :=
  c == ' ' || c == '\t' || c == '\n' || c == '\r'

/-- JS `String.prototype.trim` on ASCII strings: drop leading and
trailing whitespace. -/
def jsTrim (s : String) : String :=
  String.mk
    (((s.data.dropWhile isJsWhitespace).reverse.dropWhile
      isJsWhitespace).reverse)

/-- Spec-side match predicate for claim C4: the concatenation of name +
surname + ID number case-insensitively contains the query. -/
def specPatientMatches (query : String) (p : Paciente) : Bool :=
  jsIncludes (jsToLowerCase (p.nombre ++ " " ++ p.apellido ++ " " ++ p.dni))
    (jsToLowerCase query)

/-- Embedding of `filterPatients` from `ListaPacientes.tsx`: a blank
(empty after trim) query keeps the whole list, otherwise the list is
filtered by case-insensitive containment of the query in the template
string made of nombre, apellido and dni separated by spaces. -/
def filterPatients (searchQuery : String) (patients : List Paciente) :
    List Paciente :=
  if jsTrim searchQuery = "" then patients
  else patients.filter (fun patient =>
    jsIncludes
      (jsToLowerCase
        (patient.nombre ++ " " ++ patient.apellido ++ " " ++ patient.dni))
      (jsToLowerCase searchQuery))

/-- Embedding of the `filterPatients` variant of the home patient list
(`src/unnamed/part_001`), which concatenates only nombre and apellido,
without the dni. -/
def filterPatientsSinDni (searchQuery : String)
    (patients : List Paciente) : List Paciente :=
  if jsTrim searchQuery = "" then patients
  else patients.filter (fun patient =>
    jsIncludes (jsToLowerCase (patient.nombre ++ " " ++ patient.apellido))
      (jsToLowerCase searchQuery))

/-- First demo patient of the spec's filter example. -/
def anaLopez : Paciente :=
  ⟨"Ana", "Lopez", "12345678"⟩

/-- Second demo patient of the spec's filter example. -/
def luisRamos : Paciente :=
  ⟨"Luis", "Ramos", "87654321"⟩

/-- Digit mask of `formatDateInput`, operating on the list of at most 8
digit characters left after `text.replace(/\D/g, '').slice(0, 8)`:
`slice(a, b)` is `drop a` then `take (b - a)`. -/
def maskDigits (limited : List Char) : List Char :=
  if limited.length ≥ 2 then
    if limited.length ≥ 4 then
      if limited.length ≥ 5 then
        limited.take 2 ++ ['/'] ++ (limited.drop 2).take 2 ++ ['/'] ++
          (limited.drop 4).take 4
      else limited.take 2 ++ ['/'] ++ (limited.drop 2).take 2
    else if limited.length > 2 then
      limited.take 2 ++ ['/'] ++ limited.drop 2
    else limited.take 2
  else limited

/-- Embedding of `formatDateInput` from `PacienteFormScreen.tsx` (and
its textually identical copy in `src/unnamed/part_004`): strip
non-digits, cap at 8 digits, then apply the mask. -/
def formatDateInput (text : String) : String :=
  String.mk (maskDigits ((text.data.filter isAsciiDigit).take 8))

/-- Spec-side mask for claim C5: insert `/` after digit positions 2 and
4 of the (at most 8) digits. -/
def maskSpec (digits : List Char) : List Char :=
  if digits.length ≤ 2 then digits
  else if digits.length ≤ 4 then
    digits.take 2 ++ ['/'] ++ digits.drop 2
  else
    digits.take 2 ++ ['/'] ++ (digits.drop 2).take 2 ++ ['/'] ++
      digits.drop 4

/-- Field values of the clinical-history form
(`HistoriaClinicaFormScreen`, `src/unnamed/part_002`): `diagnostico` is
a required string, `tratamiento` and `observaciones` are optional
(absent is JS `undefined`, embedded as `none`), `estado` is a
boolean. -/
structure HistoriaClinicaForm where
  diagnostico : String
  tratamiento : Option String
  observaciones : Option String
  estado : Bool
deriving DecidableEq

/-- Semantics of the zod chain `z.string().max(cap).optional()
.or(z.literal(""))` applied to an optional text field: absent values
pass, present strings pass when within the cap or when literally
empty. -/
def zodOptionalCappedText (field : Option String) (cap : Nat) : Bool :=
  match field with
  | none => true
  | some s => decide (s.length ≤ cap) || s == ""

/-- Embedding of `HistoriaClinicaSchema`: `diagnostico` between 5 and
500 characters, `tratamiento` and `observaciones` optional with at most
1000 characters, `estado` a boolean (every `Bool` value is valid). -/
def validHistoriaClinica (f : HistoriaClinicaForm) : Bool :=
  decide (5 ≤ f.diagnostico.length ∧ f.diagnostico.length ≤ 500) &&
    zodOptionalCappedText f.tratamiento 1000 &&
    zodOptionalCappedText f.observaciones 1000

/-- Payload of `_createHistoria`, as assembled by the creation branch
of `onSubmit`. -/
structure HistoriaCreatePayload where
  id_paciente : String
  id_usuario : String
  diagnostico : String
  tratamiento : Option String
  observaciones : Option String
  fecha_registro : String
  estado : Bool
deriving DecidableEq

/-- Payload of `_updateHistoria`, as assembled by the edit branch of
`onSubmit`. -/
structure HistoriaUpdatePayload where
  id_historia : String
  diagnostico : String
  tratamiento : Option String
  observaciones : Option String
  estado : Bool
deriving DecidableEq

/-- Remote data-access call issued by a clinical-history submission. -/
inductive HistoriaRemoteCall where
  | create : HistoriaCreatePayload → HistoriaRemoteCall
  | update : HistoriaUpdatePayload → HistoriaRemoteCall
deriving DecidableEq

/-- The JS expression `field?.trim() || null`: an absent field stays
absent, a present field is trimmed and an empty trim result becomes
null (embedded as `none`). -/
def nullableTrim (field : Option String) : Option String :=
  match field with
  | none => none
  | some s => if jsTrim s = "" then none else some (jsTrim s)

/-- Submission pipeline of the clinical-history form:
`handleSubmit(onSubmit)` runs the zod resolver first and invokes
`onSubmit` only on schema-valid data; `onSubmit` then guards the
creation mode against a missing or placeholder `pacienteId` before
issuing exactly one remote call (`_updateHistoria` when `historiaId` is
present, `_createHistoria` otherwise). The result is the remote call
issued, or `none` when no remote function is invoked. -/
def submitHistoriaForm (historiaId pacienteId : Option String)
    (userId fechaHoy : String) (f : HistoriaClinicaForm) :
    Option HistoriaRemoteCall :=
  if validHistoriaClinica f then
    match historiaId with
    | some hid =>
      some (HistoriaRemoteCall.update
        { id_historia := hid
          diagnostico := jsTrim f.diagnostico
          tratamiento := nullableTrim f.tratamiento
          observaciones := nullableTrim f.observaciones
          estado := f.estado })
    | none =>
      match pacienteId with
      | none => none
      | some pid =>
        if pid = "undefined" ∨ pid = "null" then none
        else
          some (HistoriaRemoteCall.create
            { id_paciente := pid
              id_usuario := userId
              diagnostico := jsTrim f.diagnostico
              tratamiento := nullableTrim f.tratamiento
              observaciones := nullableTrim f.observaciones
              fecha_registro := fechaHoy
              estado := f.estado })
  else none

/-- The `editable` attribute shared by all three text fields of the
history form: `!isEditMode || initialEstado`. -/
def historiaFieldEditable (isEditMode initialEstado : Bool) : Bool :=
  !isEditMode || initialEstado

/-- The `disabled` attribute of the history form's submit button:
`loading || (isEditMode && !initialEstado && !estadoValue)`. -/
def historiaSubmitDisabled
    (loading isEditMode initialEstado estadoValue : Bool) : Bool :=
  loading || (isEditMode && !initialEstado && !estadoValue)

/-- ASCII letter test. -/
def isAsciiLetter (c : Char) : Bool :=
  decide ((65 ≤ c.toNat ∧ c.toNat ≤ 90) ∨ (97 ≤ c.toNat ∧ c.toNat ≤ 122))

/-- ASCII alphanumeric test. -/
def isAlnum (c : Char) : Bool :=
  isAsciiLetter c || isAsciiDigit c

/-- Splits a character list at every occurrence of `sep` (the
separators are dropped; empty segments are kept). -/
def splitOnChar (sep : Char) (l : List Char) : List (List Char) :=
  l.foldr
    (fun c acc =>
      match acc with
      | [] => [[c]]
      | seg :: rest => if c == sep then [] :: seg :: rest else (c :: seg) :: rest)
    [[]]

/-- Character class of the email local part in zod's email regex:
letters, digits, underscore, apostrophe (code 39), plus, hyphen and
dot. -/
def isEmailLocalChar (c : Char) : Bool :=
  isAlnum c || c == '_' || c.toNat == 39 || c == '+' || c == '-' || c == '.'

/-- Character class required of the final local-part character in zod's
email regex: like `isEmailLocalChar` but excluding dot and
apostrophe. -/
def isEmailLocalLastChar (c : Char) : Bool :=
  isAlnum c || c == '_' || c == '+' || c == '-'

/-- Checks one non-final domain label of zod's email regex: nonempty,
starting alphanumeric, continuing with alphanumerics or hyphens. -/
def zodDomainLabelOk (l : List Char) : Bool :=
  match l with
  | [] => false
  | c :: rest => isAlnum c && rest.all (fun ch => isAlnum ch || ch == '-')

/-- Checks the final domain label (top-level domain) of zod's email
regex: at least two letters. -/
def zodTldOk (l : List Char) : Bool :=
  decide (2 ≤ l.length) && l.all isAsciiLetter

/-- Checks the local part of zod's email regex: nonempty, drawn from
the local character class, not starting with a dot, containing no
consecutive dots, and ending in a non-dot non-apostrophe character. -/
def zodLocalOk (l : List Char) : Bool :=
  match l with
  | [] => false
  | c :: _ =>
    l.all isEmailLocalChar && !(c == '.') && !listIsInfixOf ['.', '.'] l &&
      (match l.getLast? with
       | some lastc => isEmailLocalLastChar lastc
       | none => false)

/-- Checks the domain of zod's email regex: one or more labels followed
by a letters-only top-level domain of length at least 2. -/
def zodDomainOk (l : List Char) : Bool :=
  let labels := splitOnChar '.' l
  decide (2 ≤ labels.length) && labels.dropLast.all zodDomainLabelOk &&
    (match labels.getLast? with
     | some tld => zodTldOk tld
     | none => false)

/-- Semantics of `z.string().email()` of the zod dependency used by
`PacienteSchema` (the email regex of zod 3.22): a single `@` separating
a constrained local part from a dotted domain ending in a letters-only
top-level domain. -/
def zodEmailValid (s : String) : Bool :=
  match splitOnChar '@' s.data with
  | [locPart, domain] => zodLocalOk locPart && zodDomainOk domain
  | _ => false

/-- Embedding of the `dni` field of `PacienteSchema`:
`z.string().min(8).max(8)`. -/
def zodDniValid (dni : String) : Bool :=
  decide (8 ≤ dni.length) && decide (dni.length ≤ 8)

/-- Embedding of the `correo` field of `PacienteSchema`:
`z.string().email().optional().or(z.literal(""))` - absent values pass,
present strings pass when they are valid emails or literally empty. -/
def zodCorreoValid (correo : Option String) : Bool :=
  match correo with
  | none => true
  | some s => zodEmailValid s || s == ""

/-- Row of the `historia_clinica` table, with the columns named in the
source (timestamps managed by the backend are outside the model). -/
structure HistoriaRow where
  id_paciente : String
  id_usuario : String
  diagnostico : String
  tratamiento : Option String
  observaciones : Option String
  fecha_registro : String
  estado : Bool
deriving DecidableEq

/-- Update object passed to `_updateHistoria` after destructuring away
`id_historia`: each field may be absent (not part of the update), and
the nullable text fields may be set to null (`some none`). -/
structure HistoriaUpdateData where
  diagnostico : Option String
  tratamiento : Option (Option String)
  observaciones : Option (Option String)
  estado : Option Bool
deriving DecidableEq

/-- Effect of a backend `update` on one row: present fields overwrite,
absent fields are untouched. -/
def applyUpdate (u : HistoriaUpdateData) (r : HistoriaRow) : HistoriaRow :=
  { r with
    diagnostico := u.diagnostico.getD r.diagnostico
    tratamiento := u.tratamiento.getD r.tratamiento
    observaciones := u.observaciones.getD r.observaciones
    estado := u.estado.getD r.estado }

/-- The remote `historia_clinica` table, keyed by `id_historia`, as a
plain table store. -/
abbrev HistoriaTable := List (String × HistoriaRow)

/-- `select("*").eq("id_historia", id).single()`: succeeds exactly when
one row matches, and errors (a rejected promise in the source) when
zero or several rows match. -/
def selectSingleHistoria (tbl : HistoriaTable) (id : String) :
    Except String HistoriaRow :=
  match tbl.filter (fun row => row.1 == id) with
  | [row] => Except.ok row.2
  | _ => Except.error "PGRST116"

/-- `update(updateData).eq("id_historia", id)`: applies the update to
every matching row of the table. -/
def runUpdateEq (tbl : HistoriaTable) (id : String)
    (u : HistoriaUpdateData) : HistoriaTable :=
  tbl.map (fun row =>
    if row.1 == id then (row.1, applyUpdate u row.2) else row)

/-- Embedding of the first `_updateHistoria` variant
(`src/unnamed/part_005`, first copy): one round trip
`update(...).eq(...).select().single()` whose result is the updated row;
the returned value pairs the resulting table state with that row. -/
def updateHistoriaSingleShot (tbl : HistoriaTable) (id : String)
    (u : HistoriaUpdateData) : Except String (HistoriaTable × HistoriaRow) :=
  match selectSingleHistoria (runUpdateEq tbl id u) id with
  | Except.error e => Except.error e
  | Except.ok row => Except.ok (runUpdateEq tbl id u, row)

/-- Embedding of the second `_updateHistoria` variant
(`src/unnamed/part_005`, second copy): verify the row exists with a
single select, run the update without a returning clause, then re-read
the row with another single select and return it. -/
def updateHistoriaVerified (tbl : HistoriaTable) (id : String)
    (u : HistoriaUpdateData) : Except String (HistoriaTable × HistoriaRow) :=
  match selectSingleHistoria tbl id with
  | Except.error e =>
    Except.error ("No se pudo verificar la historia: " ++ e)
  | Except.ok _ =>
    match selectSingleHistoria (runUpdateEq tbl id u) id with
    | Except.error e =>
      Except.error ("Error al obtener datos actualizados: " ++ e)
    | Except.ok row => Except.ok (runUpdateEq tbl id u, row)

/-- Demo row for the C8 witness. -/
def demoHistoriaRow : HistoriaRow :=
  ⟨"p1", "u1", "diagnostico inicial", none, none, "2026-10-11", true⟩

/-- Demo update for the C8 witness: change the diagnosis and close the
history. -/
def demoHistoriaUpdate : HistoriaUpdateData :=
  ⟨some "diagnostico revisado", some (some "reposo"), none, some false⟩

theorem digitVal_bounds (c : Char) (h : isAsciiDigit c = true) :
    0 ≤ digitVal c ∧ digitVal c ≤ 9 := by
  unfold isAsciiDigit at h
  unfold digitVal
  rw [decide_eq_true_eq] at h
  omega

theorem parseDDMMYYYY_bounds (s : String) (c : CivilDate)
    (h : parseDDMMYYYY s = some c) :
    1 ≤ c.day ∧ c.day ≤ 31 ∧ 1 ≤ c.month ∧ c.month ≤ 12 ∧
      0 ≤ c.year ∧ c.year ≤ 9999 := by
  unfold parseDDMMYYYY at h
  split at h
  · split at h
    · next hguard =>
      split at h
      · next hrange =>
        obtain rfl := Option.some.inj h
        obtain ⟨-, -, h1, h2, h3, h4, h5, h6, h7, h8⟩ := hguard
        have b1 := digitVal_bounds _ h1
        have b2 := digitVal_bounds _ h2
        have b3 := digitVal_bounds _ h3
        have b4 := digitVal_bounds _ h4
        have b5 := digitVal_bounds _ h5
        have b6 := digitVal_bounds _ h6
        have b7 := digitVal_bounds _ h7
        have b8 := digitVal_bounds _ h8
        refine ⟨?_, ?_, ?_, ?_, ?_, ?_⟩ <;> simp only [] <;> omega
      · exact absurd h (by simp)
    · exact absurd h (by simp)
  · exact absurd h (by simp)

/-- Componentwise description of equality with a `CivilDate` literal. -/
theorem CivilDate.eq_mk_iff (a : CivilDate) (y m d : Int) :
    a = ⟨y, m, d⟩ ↔ (a.year = y ∧ a.month = m ∧ a.day = d) := by
  cases a
  simp

/-- Reconstruction check of `validarFechaFormato`: for regex-range
components, the rebuilt JS date reproduces the parsed components
exactly when the year is at least 100 (escaping the two-digit-year
mapping of the `Date` constructor) and the day fits the month. -/
theorem jsDateFromYMD_roundtrip (y m d : Int) (hy : 0 ≤ y) :
    jsDateFromYMD (jsYearAdjust y) m d = ⟨y, m, d⟩ ↔
      (100 ≤ y ∧ d ≤ daysInMonth y m) := by
  unfold jsDateFromYMD jsYearAdjust
  by_cases h99 : 0 ≤ y ∧ y ≤ 99
  · rw [if_pos h99]
    split_ifs with hfits h12 <;>
      simp [CivilDate.mk.injEq] <;> omega
  · rw [if_neg h99]
    split_ifs with hfits h12 <;>
      simp [CivilDate.mk.injEq] <;> omega

/-- C1. `validarFechaFormato` deviates from the claim on 4-digit years
below 0100: the claim says every real calendar date in `DD/MM/YYYY`
form that is not in the future is accepted, but `new Date(anio, mes - 1,
dia)` maps year arguments 0 to 99 to 1900 + year, so`getFullYear()`
never matches and such dates are rejected. Amended statement, proved
here: the function returns `true` exactly for strings matching the
day(01-31)/month(01-12)/4-digit-year pattern whose components form a
real calendar date with year at least 100 that is not later than the
current day; everything else (pattern failures, calendar-invalid
combinations, future dates, and years 0000-0099) yields `false`. -/
theorem validarFechaFormato_characterization (fecha : String)
    (today : CivilDate) :
    validarFechaFormato fecha today = true ↔
      ∃ c : CivilDate, parseDDMMYYYY fecha = some c ∧ 100 ≤ c.year ∧
        c.day ≤ daysInMonth c.year c.month ∧ dateLE c today := by
  unfold validarFechaFormato
  cases hp : parseDDMMYYYY fecha with
  | none => simp
  | some c =>
    obtain ⟨hb1, hb2, hb3, hb4, hb5, hb6⟩ := parseDDMMYYYY_bounds fecha c hp
    have hrt := jsDateFromYMD_roundtrip c.year c.month c.day hb5
    simp only [decide_eq_true_eq]
    constructor
    · rintro ⟨h1, h2, h3, h4⟩
      have heq : jsDateFromYMD (jsYearAdjust c.year) c.month c.day =
          (⟨c.year, c.month, c.day⟩ : CivilDate) :=
        (CivilDate.eq_mk_iff _ _ _ _).mpr ⟨h1, h2, h3⟩
      obtain ⟨hy100, hfit⟩ := hrt.mp heq
      refine ⟨c, rfl, hy100, hfit, ?_⟩
      rw [heq] at h4
      exact h4
    · rintro ⟨c', hc', hy100, hfit, hle⟩
      obtain rfl := Option.some.inj hc'
      have heq := hrt.mpr ⟨hy100, hfit⟩
      obtain ⟨h1, h2, h3⟩ := (CivilDate.eq_mk_iff _ _ _ _).mp heq
      refine ⟨h1, h2, h3, ?_⟩
      rw [heq]
      exact hle

/-- C1 counterexample to the claim as stated: `15/03/0050` is a real
calendar date in `DD/MM/YYYY` form (per the spec-side predicate) lying
well before the current moment, yet `validarFechaFormato` returns
`false` on it. -/
theorem validarFechaFormato_year50_counterexample :
    specValidDisplayDate "15/03/0050" ⟨2026, 10, 11⟩ = true ∧
      validarFechaFormato "15/03/0050" ⟨2026, 10, 11⟩ = false := by
  constructor
  · decide
  · decide

/-- C1 witness: the amended characterization evaluated at the concrete
date `15/03/1990` against today `2026-10-11`. -/
theorem validarFechaFormato_characterization_witness :
    validarFechaFormato "15/03/1990" ⟨2026, 10, 11⟩ = true :=
  (validarFechaFormato_characterization "15/03/1990" ⟨2026, 10, 11⟩).mpr
    ⟨⟨1990, 3, 15⟩, by decide, by decide, by decide, by decide⟩

/-- C2. The claim says `formatDate` returns malformed input unchanged
via its catch branch; in fact `new Date` never throws on a string (it
yields an invalid date) and `toLocaleDateString` renders an invalid
date as the fixed string `"Invalid Date"`, so the catch branch is dead
and the original string is not returned. Evaluating the embedded code
at the failing input `"garbage"` exhibits the divergence, while a
well-formed storage date is rendered in the localized long form. -/
theorem formatDate_malformed_eval :
    formatDate "garbage" = "Invalid Date" ∧
      formatDate "garbage" ≠ "garbage" ∧
      formatDate "1990-03-15" = "15 de marzo de 1990" ∧
      formatDate "2024-06-05" = "05 de junio de 2024" := by
  refine ⟨by decide, by decide, by decide, by decide⟩

/-- C3. `calculateAge` computes the whole-year difference between today
and the birth date, decremented by one exactly when the birth month/day
has not yet occurred in the current year (the spec-side formulation),
and on birth date `2000-06-15` it yields 23 on `2024-06-14` and 24 on
`2024-06-15` and on later days of that birth year, such as
`2024-12-31`. -/
theorem calculateAge_spec :
    (∀ birth today : CivilDate,
        calculateAge birth today = computeAgeSpec birth today) ∧
      calculateAgeStr "2000-06-15" ⟨2024, 6, 14⟩ = some 23 ∧
      calculateAgeStr "2000-06-15" ⟨2024, 6, 15⟩ = some 24 ∧
      calculateAgeStr "2000-06-15" ⟨2024, 12, 31⟩ = some 24 := by
  refine ⟨?_, by decide, by decide, by decide⟩
  intro birth today
  unfold calculateAge computeAgeSpec
  dsimp only
  split_ifs with h1 h2 <;> omega

/-- C10. `calculateAge` has no lower bound at zero: whenever the birth
date lies strictly after today, the result is a negative integer (the
function neither fails nor clamps); the future-date guard exists only
in the form validation (`validarFechaFormato`), not here. -/
theorem calculateAge_negative_for_future (birth today : CivilDate)
    (h : dateLT today birth) : calculateAge birth today < 0 := by
  unfold dateLT at h
  unfold calculateAge
  dsimp only
  split_ifs with h1 <;> omega

/-- C10 witness: a birth date in 2030 evaluated against today
`2026-10-11` yields a negative age. -/
theorem calculateAge_negative_for_future_witness :
    dateLT ⟨2026, 10, 11⟩ ⟨2030, 1, 1⟩ ∧
      calculateAge ⟨2030, 1, 1⟩ ⟨2026, 10, 11⟩ < 0 :=
  ⟨by decide, calculateAge_negative_for_future ⟨2030, 1, 1⟩ ⟨2026, 10, 11⟩
    (by decide)⟩

/-- C4. The patient-list filter returns exactly the order-preserving
sublist of patients whose concatenated name + surname + DNI
case-insensitively contains the query, returns the full list on a
blank query, and on the spec's demo list query `"ana"` keeps only Ana
Lopez while query `""` keeps both records in order; the no-DNI screen
variant behaves the same way on its two concatenated fields. -/
theorem filterPatients_spec :
    (∀ q ps, List.Sublist (filterPatients q ps) ps) ∧
      (∀ q ps, jsTrim q = "" → filterPatients q ps = ps) ∧
      (∀ q ps, jsTrim q ≠ "" →
        filterPatients q ps = ps.filter (specPatientMatches q)) ∧
      (∀ q ps, List.Sublist (filterPatientsSinDni q ps) ps) ∧
      filterPatients "ana" [anaLopez, luisRamos] = [anaLopez] ∧
      filterPatients "" [anaLopez, luisRamos] = [anaLopez, luisRamos] ∧
      filterPatientsSinDni "ana" [anaLopez, luisRamos] = [anaLopez] := by
  refine ⟨?_, ?_, ?_, ?_, by decide, by decide, by decide⟩
  · intro q ps
    unfold filterPatients
    split
    · exact List.Sublist.refl ps
    · exact List.filter_sublist ps
  · intro q ps h
    unfold filterPatients
    rw [if_pos h]
  · intro q ps h
    unfold filterPatients specPatientMatches
    rw [if_neg h]
  · intro q ps
    unfold filterPatientsSinDni
    split
    · exact List.Sublist.refl ps
    · exact List.filter_sublist ps

/-- C4 witness: the blank-query branch of the theorem applied to a
concrete whitespace query and the demo list. -/
theorem filterPatients_spec_witness :
    filterPatients "  " [anaLopez, luisRamos] = [anaLopez, luisRamos] :=
  filterPatients_spec.2.1 "  " [anaLopez, luisRamos] (by decide)

theorem maskDigits_eq_maskSpec (l : List Char) (h : l.length ≤ 8) :
    maskDigits l = maskSpec l := by
  rcases l with - | ⟨a, - | ⟨b, - | ⟨c, - | ⟨d, - | ⟨e, - | ⟨f, - |
    ⟨g, - | ⟨i, - | ⟨j, rest⟩⟩⟩⟩⟩⟩⟩⟩⟩
  · rfl
  · rfl
  · rfl
  · rfl
  · rfl
  · rfl
  · rfl
  · rfl
  · rfl
  · simp only [List.length_cons] at h
    omega

/-- C5. `formatDateInput` strips all non-digit characters, caps the
result at 8 digits and inserts `/` after digit positions 2 and 4 (the
spec-side mask); on `"15031990"` it produces `"15/03/1990"`, and each
successive digit prefix is masked to a prefix of the fully masked
string. -/
theorem formatDateInput_spec :
    (∀ text : String, formatDateInput text =
        String.mk (maskSpec ((text.data.filter isAsciiDigit).take 8))) ∧
      formatDateInput "15031990" = "15/03/1990" ∧
      ([ "1", "15", "150", "1503", "15031", "150319", "1503199",
          "15031990"].all
        (fun s => listIsPrefixOf (formatDateInput s).data
          (formatDateInput "15031990").data)) = true := by
  refine ⟨?_, by decide, by decide⟩
  intro text
  unfold formatDateInput
  rw [maskDigits_eq_maskSpec]
  exact le_trans (List.length_take_le 8 _) (le_refl 8)

/-- C6. A clinical-history submission whose `diagnostico` has fewer
than 5 characters is rejected by the schema and no remote data-access
function is invoked; conversely, whenever a remote call is issued the
whole history schema was valid. The concrete 3-character diagnosis
`"abc"` is rejected. -/
theorem submitHistoriaForm_gated (historiaId pacienteId : Option String)
    (userId fechaHoy : String) (f : HistoriaClinicaForm) :
    (f.diagnostico.length < 5 →
        submitHistoriaForm historiaId pacienteId userId fechaHoy f = none) ∧
      (∀ call : HistoriaRemoteCall,
        submitHistoriaForm historiaId pacienteId userId fechaHoy f =
            some call →
          validHistoriaClinica f = true) := by
  constructor
  · intro hshort
    unfold submitHistoriaForm
    rw [if_neg]
    intro hv
    unfold validHistoriaClinica at hv
    simp only [Bool.and_eq_true, decide_eq_true_eq] at hv
    omega
  · intro call hcall
    unfold submitHistoriaForm at hcall
    by_cases hv : validHistoriaClinica f = true
    · exact hv
    · rw [if_neg (by simpa using hv)] at hcall
      exact absurd hcall (by simp)

/-- C6 witness: a submission with the 3-character diagnosis `"abc"`
issues no remote call. -/
theorem submitHistoriaForm_gated_witness :
    ("abc".length < 5) ∧
      submitHistoriaForm none (some "p1") "u1" "2026-10-11"
        ⟨"abc", none, none, true⟩ = none :=
  ⟨by decide,
    (submitHistoriaForm_gated none (some "p1") "u1" "2026-10-11"
      ⟨"abc", none, none, true⟩).1 (by decide)⟩

/-- C7. While editing a closed history (`isEditMode = true`,
`initialEstado = false`), in every reachable combination of the
`loading` and `estado`-switch states: every text field is read-only,
the submit action is disabled whenever the estado switch is not set
back to active, and setting the switch back to active re-enables
submission (outside the transient `loading` state). -/
theorem historiaClosed_invariant (loading estadoValue : Bool) :
    historiaFieldEditable true false = false ∧
      (estadoValue = false →
        historiaSubmitDisabled loading true false estadoValue = true) ∧
      (loading = false → estadoValue = true →
        historiaSubmitDisabled loading true false estadoValue = false) := by
  refine ⟨by decide, ?_, ?_⟩
  · rintro rfl
    cases loading <;> decide
  · rintro rfl rfl
    decide

/-- C7 witness: with the screen idle and the estado switch reactivated,
submission is enabled again while the fields stay read-only. -/
theorem historiaClosed_invariant_witness :
    historiaFieldEditable true false = false ∧
      historiaSubmitDisabled false true false true = false :=
  ⟨(historiaClosed_invariant false true).1,
    (historiaClosed_invariant false true).2.2 rfl rfl⟩

/-- C9. The patient schema accepts a `dni` exactly when its length is
8, rejecting the 7-character `"1234567"` and accepting `"12345678"`; a
present `correo` is accepted exactly when it is the empty string or a
valid email per the schema's email predicate, rejecting
`"not-an-email"` and accepting `""` (and, as a sanity check, accepting
the form's own placeholder address). -/
theorem pacienteSchema_dni_correo :
    (∀ s : String, zodDniValid s = true ↔ s.length = 8) ∧
      zodDniValid "1234567" = false ∧
      zodDniValid "12345678" = true ∧
      (∀ c : String,
        zodCorreoValid (some c) = true ↔ (c = "" ∨ zodEmailValid c = true)) ∧
      zodCorreoValid (some "not-an-email") = false ∧
      zodCorreoValid (some "") = true ∧
      zodEmailValid "correo@ejemplo.com" = true := by
  refine ⟨?_, by decide, by decide, ?_, by decide, by decide, by decide⟩
  · intro s
    unfold zodDniValid
    simp only [Bool.and_eq_true, decide_eq_true_eq]
    omega
  · intro c
    unfold zodCorreoValid
    simp only [Bool.or_eq_true, beq_iff_eq]
    tauto

/-- C9 witness: the dni characterization applied to the concrete
8-character string `"87654321"`. -/
theorem pacienteSchema_dni_correo_witness :
    zodDniValid "87654321" = true :=
  (pacienteSchema_dni_correo.1 "87654321").mpr (by decide)

theorem filter_runUpdateEq (tbl : HistoriaTable) (id : String)
    (u : HistoriaUpdateData) :
    (runUpdateEq tbl id u).filter (fun row => row.1 == id) =
      (tbl.filter (fun row => row.1 == id)).map
        (fun row => (row.1, applyUpdate u row.2)) := by
  induction tbl with
  | nil => rfl
  | cons hd tl ih =>
    unfold runUpdateEq at ih ⊢
    simp only [beq_iff_eq] at ih ⊢
    by_cases h : hd.1 = id
    · simp [List.filter_cons, h, ih]
    · simp [List.filter_cons, h, ih]

/-- C8. For every existing history row under the table-store model
(exactly one row carries the target identifier), the single-update
variant and the verify-then-update-then-reread variant of
`_updateHistoria` are observably equivalent: both leave the table with
that row updated and both return the updated row; the extra round
trips change nothing. -/
theorem updateHistoria_variants_equivalent (tbl : HistoriaTable)
    (id : String) (u : HistoriaUpdateData) (r : HistoriaRow)
    (h : tbl.filter (fun row => row.1 == id) = [(id, r)]) :
    updateHistoriaSingleShot tbl id u =
        Except.ok (runUpdateEq tbl id u, applyUpdate u r) ∧
      updateHistoriaVerified tbl id u = updateHistoriaSingleShot tbl id u := by
  have hsel : selectSingleHistoria tbl id = Except.ok r := by
    unfold selectSingleHistoria
    rw [h]
  have hsel' : selectSingleHistoria (runUpdateEq tbl id u) id =
      Except.ok (applyUpdate u r) := by
    unfold selectSingleHistoria
    rw [filter_runUpdateEq, h]
    rfl
  constructor
  · unfold updateHistoriaSingleShot
    rw [hsel']
  · unfold updateHistoriaVerified updateHistoriaSingleShot
    rw [hsel, hsel']

/-- C8 witness: on a one-row table holding the demo row, both variants
coincide and return the updated row. -/
theorem updateHistoria_variants_equivalent_witness :
    List.filter (fun row => row.1 == "h1") [("h1", demoHistoriaRow)] =
        [("h1", demoHistoriaRow)] ∧
      updateHistoriaVerified [("h1", demoHistoriaRow)] "h1"
          demoHistoriaUpdate =
        updateHistoriaSingleShot [("h1", demoHistoriaRow)] "h1"
          demoHistoriaUpdate :=
  ⟨by decide,
    (updateHistoria_variants_equivalent [("h1", demoHistoriaRow)] "h1"
      demoHistoriaUpdate demoHistoriaRow (by decide)).2⟩

end PsicoApp
